import Mathlib

/-!
Shallow embedding of the CDE-ONE authorization + lifecycle engine
(`backend/app/core/rbac.py`, `backend/app/core/middleware.py`,
`backend/app/routers/documents.py`) and proofs about the spec's claims.
-/

namespace CDE

/-- `UserRole` enum from `rbac.py` (values "Admin", "Project Manager", "Viewer"). -/
inductive UserRole
  | admin
  | projectManager
  | viewer
deriving DecidableEq, Repr, Fintype

/-- The string value of each `UserRole` member (it is a `str`-valued enum). -/
def UserRole.value : UserRole → String
  | .admin => "Admin"
  | .projectManager => "Project Manager"
  | .viewer => "Viewer"

/-- `UserRole(s)` as a total function: `some` member whose value is `s`, else `none`. -/
def UserRole.ofString (s : String) : Option UserRole :=
  if s = "Admin" then some .admin
  else if s = "Project Manager" then some .projectManager
  else if s = "Viewer" then some .viewer
  else none

/-- `DocumentStatus` enum from `rbac.py`: ISO 19650 stages S0..S5. -/
inductive DocumentStatus
  | s0  -- WIP
  | s1  -- Tender
  | s2  -- Construction
  | s3  -- Info Approval
  | s4  -- Published
  | s5  -- Archived
deriving DecidableEq, Repr, Fintype

/-- The string value of each `DocumentStatus` member. -/
def DocumentStatus.value : DocumentStatus → String
  | .s0 => "S0"
  | .s1 => "S1"
  | .s2 => "S2"
  | .s3 => "S3"
  | .s4 => "S4"
  | .s5 => "S5"

/-- `Permission` enum from `rbac.py`. -/
inductive Permission
  | view
  | download
  | upload
  | update
  | delete
  | promote
  | share
deriving DecidableEq, Repr, Fintype

/-- `ROLE_PERMISSIONS` dict from `rbac.py`, keyed by the three enum members. -/
def ROLE_PERMISSIONS : UserRole → List Permission
  | .admin => [.view, .download, .upload, .update, .delete, .promote, .share]
  | .projectManager => [.view, .download, .upload, .update, .promote, .share]
  | .viewer => [.view, .download]

/-- `has_permission` from `rbac.py`. `UserRole` is a `str` enum, so the dict lookup
`ROLE_PERMISSIONS.get(user_role, set())` succeeds for the three member strings and
falls back to the empty set for any other value; the role is therefore taken here
as an arbitrary string. -/
def has_permission (user_role : String) (permission : Permission) : Bool :=
  match UserRole.ofString user_role with
  | some r => decide (permission ∈ ROLE_PERMISSIONS r)
  | none => false

/-- `has_permission` specialised to a known enum member (how the other predicates
in `rbac.py` invoke it: the lookup then always succeeds). -/
def has_permission_role (user_role : UserRole) (permission : Permission) : Bool :=
  decide (permission ∈ ROLE_PERMISSIONS user_role)

/-- `can_view_document` from `rbac.py`. -/
def can_view_document (user_id : String) (user_role : UserRole)
    (document_status : DocumentStatus) (document_author_id : String) : Bool :=
  if user_role = UserRole.admin then true
  else if document_status ≠ DocumentStatus.s0 then true
  else decide (document_author_id = user_id)

/-- `can_download_document` from `rbac.py`. -/
def can_download_document (user_id : String) (user_role : UserRole)
    (document_status : DocumentStatus) (document_author_id : String) : Bool :=
  if ¬ has_permission_role user_role Permission.download then false
  else can_view_document user_id user_role document_status document_author_id

/-- `can_update_document` from `rbac.py`. -/
def can_update_document (user_id : String) (user_role : UserRole)
    (document_status : DocumentStatus) (document_author_id : String) : Bool :=
  if ¬ has_permission_role user_role Permission.update then false
  else if user_role = UserRole.admin then true
  else if document_status = DocumentStatus.s0 then decide (document_author_id = user_id)
  else if user_role = UserRole.projectManager then true
  else false

/-- `can_delete_document` from `rbac.py`. -/
def can_delete_document (user_id : String) (user_role : UserRole)
    (document_status : DocumentStatus) (document_author_id : String) : Bool :=
  if ¬ has_permission_role user_role Permission.delete then false
  else decide (user_role = UserRole.admin)

/-- `can_promote_document` from `rbac.py` (the `target_status` parameter is
declared by the source but never read in its body). -/
def can_promote_document (user_id : String) (user_role : UserRole)
    (document_status : DocumentStatus) (document_author_id : String)
    (target_status : DocumentStatus) : Bool :=
  if ¬ has_permission_role user_role Permission.promote then false
  else if user_role = UserRole.admin then true
  else if document_status = DocumentStatus.s0 then decide (document_author_id = user_id)
  else if user_role = UserRole.projectManager then true
  else false

/-- `valid_transitions` dict from `promote_document` (documents.py lines 593-600). -/
def valid_transitions : DocumentStatus → List DocumentStatus
  | .s0 => [.s1, .s2, .s3]
  | .s1 => [.s2, .s3, .s4]
  | .s2 => [.s3, .s4]
  | .s3 => [.s4]
  | .s4 => [.s5]
  | .s5 => []

/-- The four transition classifications used by `promote_document`
(`"share"`, `"publish"`, `"archive"`, `"coordinate"`). -/
inductive ActionType
  | share
  | publish
  | archive
  | coordinate
deriving DecidableEq, Repr, Fintype

/-- The `action_type` cascade of `promote_document` (documents.py lines 623-632). -/
def action_type_of (current target : DocumentStatus) : Option ActionType :=
  if current = .s0 ∧ target ∈ [DocumentStatus.s1, .s2, .s3] then some .share
  else if current ∈ [DocumentStatus.s1, .s2, .s3] ∧ target = .s4 then some .publish
  else if current = .s4 ∧ target = .s5 then some .archive
  else if current ∈ [DocumentStatus.s1, .s2, .s3] ∧ target ∈ [DocumentStatus.s2, .s3] then
    some .coordinate
  else none

/-- ASCII letter test, the `[A-Za-z]` class of the revision regex. -/
def isAsciiLetter (c : Char) : Bool :=
  ('A' ≤ c && c ≤ 'Z') || ('a' ≤ c && c ≤ 'z')

/-- ASCII digit test for the revision regex (digits restricted to `0-9`). -/
def isAsciiDigit (c : Char) : Bool :=
  '0' ≤ c && c ≤ '9'

/-- Decimal value of a digit string, as `int()` computes it. -/
def digitsToNat (cs : List Char) : Nat :=
  cs.foldl (fun n c => n * 10 + (c.toNat - 48)) 0

/-- The regex match `re.match(r'^([A-Za-z]+)(\d+)$', rev)` of `promote_document`:
a non-empty run of letters followed by a non-empty run of digits covering the
whole string. Returns the letter group and the numeric value of the digit group. -/
def parse_revision (rev : String) : Option (String × Nat) :=
  let cs := rev.toList
  let letters := cs.takeWhile isAsciiLetter
  let rest := cs.drop letters.length
  if letters.isEmpty then none
  else if rest.isEmpty then none
  else if rest.all isAsciiDigit then some (String.mk letters, digitsToNat rest)
  else none

/-- Python's `f"{n:02d}"`: decimal digits zero-padded to width at least 2. -/
def pad2 (n : Nat) : String :=
  if n < 10 then "0" ++ toString n else toString n

/-- Python's `str.upper()` on the parsed prefix (ASCII letters only), as a
character-by-character map. -/
def strUpper (s : String) : String :=
  String.mk (s.toList.map Char.toUpper)

/-- The revision-renumbering block of `promote_document`
(documents.py lines 634-666), as a function of the classification, the
`increment_revision` flag and the current revision. -/
def compute_new_revision (action_type : Option ActionType) (increment_revision : Bool)
    (rev : String) : String :=
  if action_type = some ActionType.publish then
    match parse_revision rev with
    | some (pfx, n) =>
      if strUpper pfx = "P" then "C" ++ pad2 n
      else if strUpper pfx = "A" then "C" ++ pad2 n
      else strUpper pfx ++ pad2 (n + 1)
    | none => "C01"
  else if increment_revision then
    match parse_revision rev with
    | some (pfx, n) => strUpper pfx ++ pad2 (n + 1)
    | none => "P01"
  else rev

/-- Modelled from the spec: the §4.3 renumbering algorithm read literally —
on `publish`, prefix exactly `P` or `A` becomes `C` with the numeric part kept,
and "any other prefix is kept" (unchanged) with the number incremented; the
explicit-increment branch upper-cases the kept prefix as §4.3 step 3 states. -/
def revision_spec_literal (action_type : Option ActionType) (increment_revision : Bool)
    (rev : String) : String :=
  if action_type = some ActionType.publish then
    match parse_revision rev with
    | some (pfx, n) =>
      if pfx = "P" ∨ pfx = "A" then "C" ++ pad2 n
      else pfx ++ pad2 (n + 1)
    | none => "C01"
  else if increment_revision then
    match parse_revision rev with
    | some (pfx, n) => strUpper pfx ++ pad2 (n + 1)
    | none => "P01"
  else rev

/-- Modelled from the spec, amended: as `revision_spec_literal`, except that on
`publish` the prefix is compared case-insensitively against `P`/`A` and any
other prefix is kept upper-cased. -/
def revision_spec_amended (action_type : Option ActionType) (increment_revision : Bool)
    (rev : String) : String :=
  if action_type = some ActionType.publish then
    match parse_revision rev with
    | some (pfx, n) =>
      if strUpper pfx = "P" ∨ strUpper pfx = "A" then "C" ++ pad2 n
      else strUpper pfx ++ pad2 (n + 1)
    | none => "C01"
  else if increment_revision then
    match parse_revision rev with
    | some (pfx, n) => strUpper pfx ++ pad2 (n + 1)
    | none => "P01"
  else rev

/-- `status_descriptions` dict of `promote_document` (documents.py lines 674-681). -/
def status_descriptions : DocumentStatus → String
  | .s0 => "Work in Progress"
  | .s1 => "Tender/Shared"
  | .s2 => "Construction"
  | .s3 => "Information Approval"
  | .s4 => "Published"
  | .s5 => "Archived"

/-- The default-comment synthesis of `promote_document`
(documents.py lines 683-693), used when the caller supplies no comment. -/
def default_comment (action_type : Option ActionType) (current target : DocumentStatus)
    (new_rev : String) : String :=
  match action_type with
  | some .share => "Shared for coordination - " ++ status_descriptions target
  | some .publish =>
    "Published for construction - " ++ status_descriptions target ++ " (Rev " ++ new_rev ++ ")"
  | some .archive => "Archived - " ++ status_descriptions target
  | some .coordinate => "Coordinated - " ++ status_descriptions target
  | none => "Status changed from " ++ current.value ++ " to " ++ target.value

/-- A row of `document_versions` (`models/document.py`, `DocumentVersion`);
timestamps and file paths are plumbing and not modelled. -/
structure VersionRecord where
  revision : String
  author_id : String
  comment : String
  status : DocumentStatus
deriving DecidableEq, Repr

/-- A row of `documents` (`models/document.py`, `Document`) together with its
version history (ordered oldest first, so the most recent record is the last);
timestamps, file paths, sizes and project links are plumbing and not modelled. -/
structure Document where
  id : String
  name : String
  revision : String
  status : DocumentStatus
  discipline : String
  description : Option String
  author_id : Option String
  versions : List VersionRecord
deriving DecidableEq, Repr

/-- The authenticated principal (`current_user`), already coerced to a valid role
by `UserRole(current_user.role)` in the routers. -/
structure AuthUser where
  id : String
  email : String
  role : UserRole
deriving DecidableEq, Repr

/-- An `audit_log` call from `middleware.py` (the free-form `details` dict is
not modelled; defaults are `success=True`, `status_code=200`). -/
structure AuditEvent where
  action : String
  user_id : String
  user_email : String
  user_role : String
  resource_type : String
  resource_id : Option String
  success : Bool
  status_code : Nat
deriving DecidableEq, Repr

/-- The `HTTPException`s raised by the document endpoints, distinguished by
raise site: 404 not-found, 403 permission denial, the 400 invalid-transition
and same-state raises of `promote_document`, and the 500 commit failure. -/
inductive ApiError
  | notFound
  | permissionDenied
  | invalidTransition (src tgt : DocumentStatus)
  | sameState (s : DocumentStatus)
  | persistenceFailure
deriving DecidableEq, Repr

/-- `WorkflowTransition` request schema (`schemas/document.py`); the `state`
string is modelled already parsed into the status enum (an out-of-range string
is rejected before the workflow logic runs). -/
structure WorkflowTransition where
  state : DocumentStatus
  comment : Option String
  increment_revision : Bool
deriving DecidableEq, Repr

/-- The data `promote_document` computes for a successful transition: the
updated document plus the fields of `WorkflowTransitionResponse`. -/
structure PromoteOutput where
  doc : Document
  previous_status : DocumentStatus
  new_status : DocumentStatus
  new_revision : String
  action : Option ActionType
  comment : String
deriving DecidableEq, Repr

/-- The document table, keyed by document id. -/
abbrev Store := List (String × Document)

/-- `db.query(Document).filter(Document.id == id).first()`. -/
def store_get (store : Store) (document_id : String) : Option Document :=
  match store.find? (fun p => p.1 = document_id) with
  | some p => some p.2
  | none => none

/-- An unconditional load-then-save commit: replaces the row with the given id
(the routers mutate the loaded ORM object and `db.commit()`, with no
compare-and-swap on the previously read stage/revision). -/
def store_put (store : Store) (document_id : String) (doc : Document) : Store :=
  store.map (fun p => if p.1 = document_id then (document_id, doc) else p)

/-- `GET /documents/{id}` (`get_document`, documents.py lines 118-187):
not-found is audited, a permitted view is audited, and the RBAC denial raises
403 with no audit call. The response mapping is plumbing; the document itself
stands for the response. -/
def get_document (document_id : String) (doc? : Option Document) (user : AuthUser) :
    Except ApiError Document × List AuditEvent :=
  match doc? with
  | none =>
    (Except.error ApiError.notFound,
     [{ action := "document.view.not_found", user_id := user.id, user_email := user.email,
        user_role := user.role.value, resource_type := "document",
        resource_id := some document_id, success := false, status_code := 404 }])
  | some doc =>
    if ¬ can_view_document user.id user.role doc.status (doc.author_id.getD "") then
      (Except.error ApiError.permissionDenied, [])
    else
      (Except.ok doc,
       [{ action := "document.view", user_id := user.id, user_email := user.email,
          user_role := user.role.value, resource_type := "document",
          resource_id := some document_id, success := true, status_code := 200 }])

/-- `GET /documents/{id}/download` (`download_document`, documents.py lines
762-817, up to the file serving): not-found, denial and success are each
audited once. -/
def download_document (document_id : String) (doc? : Option Document) (user : AuthUser) :
    Except ApiError Document × List AuditEvent :=
  match doc? with
  | none =>
    (Except.error ApiError.notFound,
     [{ action := "document.download.not_found", user_id := user.id, user_email := user.email,
        user_role := user.role.value, resource_type := "document",
        resource_id := some document_id, success := false, status_code := 404 }])
  | some doc =>
    if ¬ can_download_document user.id user.role doc.status (doc.author_id.getD "") then
      (Except.error ApiError.permissionDenied,
       [{ action := "document.download.denied", user_id := user.id, user_email := user.email,
          user_role := user.role.value, resource_type := "document",
          resource_id := some document_id, success := false, status_code := 403 }])
    else
      (Except.ok doc,
       [{ action := "document.download", user_id := user.id, user_email := user.email,
          user_role := user.role.value, resource_type := "document",
          resource_id := some document_id, success := true, status_code := 200 }])

/-- `POST /documents` (`upload_document`, documents.py lines 190-367), on the
path where the file write and the database commit succeed: the RBAC denial and
the successful creation are each audited once; the created document starts at
stage S0 with revision P01 and one initial version record. -/
def upload_document (doc_id name discipline : String) (description : Option String)
    (user : AuthUser) : Except ApiError Document × List AuditEvent :=
  if ¬ decide (Permission.upload ∈ ROLE_PERMISSIONS user.role) then
    (Except.error ApiError.permissionDenied,
     [{ action := "document.upload.denied", user_id := user.id, user_email := user.email,
        user_role := user.role.value, resource_type := "document",
        resource_id := none, success := false, status_code := 403 }])
  else
    (Except.ok
      { id := doc_id, name := name, revision := "P01", status := DocumentStatus.s0,
        discipline := discipline, description := description, author_id := some user.id,
        versions := [{ revision := "P01", author_id := user.id,
                       comment := "Initial upload", status := DocumentStatus.s0 }] },
     [{ action := "document.upload", user_id := user.id, user_email := user.email,
        user_role := user.role.value, resource_type := "document",
        resource_id := some doc_id, success := true, status_code := 200 }])

/-- `DocumentUpdate` request schema (`schemas/document.py`). -/
structure DocumentUpdate where
  name : Option String
  description : Option String
  discipline : Option String
deriving DecidableEq, Repr

/-- `PUT /documents/{id}` (`update_document`, documents.py lines 370-430):
no `audit_log` call appears anywhere in this endpoint — neither the not-found
nor the denial nor the successful metadata update is audited. -/
def update_document (document_id : String) (doc? : Option Document) (user : AuthUser)
    (data : DocumentUpdate) : Except ApiError Document × List AuditEvent :=
  match doc? with
  | none => (Except.error ApiError.notFound, [])
  | some doc =>
    if ¬ can_update_document user.id user.role doc.status (doc.author_id.getD "") then
      (Except.error ApiError.permissionDenied, [])
    else
      (Except.ok
        { doc with
          name := data.name.getD doc.name,
          description := match data.description with
            | some d => some d
            | none => doc.description,
          discipline := data.discipline.getD doc.discipline },
       [])

/-- `DELETE /documents/{id}` (`delete_document`, documents.py lines 433-504):
not-found, denial and successful deletion are each audited once. -/
def delete_document (document_id : String) (doc? : Option Document) (user : AuthUser) :
    Except ApiError Unit × List AuditEvent :=
  match doc? with
  | none =>
    (Except.error ApiError.notFound,
     [{ action := "document.delete.not_found", user_id := user.id, user_email := user.email,
        user_role := user.role.value, resource_type := "document",
        resource_id := some document_id, success := false, status_code := 404 }])
  | some doc =>
    if ¬ can_delete_document user.id user.role doc.status (doc.author_id.getD "") then
      (Except.error ApiError.permissionDenied,
       [{ action := "document.delete.denied", user_id := user.id, user_email := user.email,
          user_role := user.role.value, resource_type := "document",
          resource_id := some document_id, success := false, status_code := 403 }])
    else
      (Except.ok (),
       [{ action := "document.delete", user_id := user.id, user_email := user.email,
          user_role := user.role.value, resource_type := "document",
          resource_id := some document_id, success := true, status_code := 200 }])

/-- The body of `POST /documents/{id}/workflow` (`promote_document`,
documents.py lines 549-759) applied to the loaded snapshot of the document,
on the path where the database commit succeeds: the RBAC check (audited on
denial), the transition-table check and same-state check (plain 400s, not
audited), classification, revision renumbering, default-comment synthesis,
the field update, the appended version record, and the success audit. -/
def promote_compute (document_id : String) (doc : Document) (user : AuthUser)
    (w : WorkflowTransition) : Except ApiError PromoteOutput × List AuditEvent :=
  let current_status := doc.status
  let target_status := w.state
  if ¬ can_promote_document user.id user.role doc.status (doc.author_id.getD "")
      target_status then
    (Except.error ApiError.permissionDenied,
     [{ action := "document.promote.denied", user_id := user.id, user_email := user.email,
        user_role := user.role.value, resource_type := "document",
        resource_id := some document_id, success := false, status_code := 403 }])
  else if ¬ target_status ∈ valid_transitions current_status then
    (Except.error (ApiError.invalidTransition current_status target_status), [])
  else if current_status = target_status then
    (Except.error (ApiError.sameState current_status), [])
  else
    let action_type := action_type_of current_status target_status
    let new_rev := compute_new_revision action_type w.increment_revision doc.revision
    let comment := match w.comment with
      | some c => if c = "" then default_comment action_type current_status target_status new_rev
                  else c
      | none => default_comment action_type current_status target_status new_rev
    let version : VersionRecord :=
      { revision := new_rev, author_id := user.id, comment := comment,
        status := target_status }
    let doc' : Document :=
      { doc with revision := new_rev, status := target_status,
                 versions := doc.versions ++ [version] }
    (Except.ok
      { doc := doc', previous_status := current_status, new_status := target_status,
        new_revision := new_rev, action := action_type, comment := comment },
     [{ action := "document.promote", user_id := user.id, user_email := user.email,
        user_role := user.role.value, resource_type := "document",
        resource_id := some document_id, success := true, status_code := 200 }])

/-- The full promote endpoint against the document table: load, compute on the
loaded snapshot, and on success write the updated row back (load-then-save,
with no re-check of the stored stage). Returns the resulting table, the
result, and the emitted audit events. -/
def promote_document (document_id : String) (store : Store) (user : AuthUser)
    (w : WorkflowTransition) :
    Store × Except ApiError PromoteOutput × List AuditEvent :=
  match store_get store document_id with
  | none =>
    (store, Except.error ApiError.notFound,
     [{ action := "document.promote.not_found", user_id := user.id, user_email := user.email,
        user_role := user.role.value, resource_type := "document",
        resource_id := some document_id, success := false, status_code := 404 }])
  | some doc =>
    match promote_compute document_id doc user w with
    | (Except.ok out, evs) => (store_put store document_id out.doc, Except.ok out, evs)
    | (Except.error e, evs) => (store, Except.error e, evs)

/-- Two promotion requests racing on the same document, interleaved as
load-A, load-B, commit-A, commit-B: both handlers compute from the same
snapshot (the stored row at the start), and each successful computation is
written back unconditionally, exactly as `promote_document` persists. -/
def stale_pair_run (store : Store) (document_id : String)
    (u1 : AuthUser) (w1 : WorkflowTransition) (u2 : AuthUser) (w2 : WorkflowTransition) :
    Store × Except ApiError PromoteOutput × Except ApiError PromoteOutput :=
  match store_get store document_id with
  | none => (store, Except.error ApiError.notFound, Except.error ApiError.notFound)
  | some doc =>
    let r1 := (promote_compute document_id doc u1 w1).1
    let r2 := (promote_compute document_id doc u2 w2).1
    let store1 := match r1 with
      | Except.ok o => store_put store document_id o.doc
      | Except.error _ => store
    let store2 := match r2 with
      | Except.ok o => store_put store1 document_id o.doc
      | Except.error _ => store1
    (store2, r1, r2)

/-- The §3 invariant: the document's current stage and revision equal those of
its most recent version record. -/
def doc_invariant (d : Document) : Prop :=
  match d.versions.getLast? with
  | some v => d.status = v.status ∧ d.revision = v.revision
  | none => False

instance (d : Document) : Decidable (doc_invariant d) := by
  unfold doc_invariant
  exact match d.versions.getLast? with
  | some v => inferInstanceAs (Decidable (_ ∧ _))
  | none => inferInstanceAs (Decidable False)

/-- Scenario C document: stage InfoApproval, revision P03, authored by u1. -/
def doc7 : Document :=
  { id := "d7", name := "Plan", revision := "P03", status := DocumentStatus.s3,
    discipline := "Architecture", description := none, author_id := some "u1",
    versions := [{ revision := "P03", author_id := "u1", comment := "Shared",
                   status := DocumentStatus.s3 }] }

/-- A ProjectManager principal. -/
def userPM : AuthUser :=
  { id := "u2", email := "pm@cde.example", role := UserRole.projectManager }

/-- A second ProjectManager principal. -/
def userPM2 : AuthUser :=
  { id := "u3", email := "pm2@cde.example", role := UserRole.projectManager }

/-- An Admin principal. -/
def userAdmin : AuthUser :=
  { id := "u0", email := "admin@cde.example", role := UserRole.admin }

/-- A Viewer principal distinct from the authors. -/
def userViewer : AuthUser :=
  { id := "u9", email := "viewer@cde.example", role := UserRole.viewer }

/-- Scenario C request: promote to Published, no comment. -/
def w7 : WorkflowTransition :=
  { state := DocumentStatus.s4, comment := none, increment_revision := false }

/-- The output `promote_compute` produces for scenario C. -/
def promoted7_out : PromoteOutput :=
  { doc := { id := "d7", name := "Plan", revision := "C03", status := DocumentStatus.s4,
             discipline := "Architecture", description := none, author_id := some "u1",
             versions := [{ revision := "P03", author_id := "u1", comment := "Shared",
                            status := DocumentStatus.s3 },
                          { revision := "C03", author_id := "u2",
                            comment := "Published for construction - Published (Rev C03)",
                            status := DocumentStatus.s4 }] },
    previous_status := DocumentStatus.s3, new_status := DocumentStatus.s4,
    new_revision := "C03", action := some ActionType.publish,
    comment := "Published for construction - Published (Rev C03)" }

/-- The audit event `promote_compute` emits for scenario C. -/
def promoted7_event : AuditEvent :=
  { action := "document.promote", user_id := "u2", user_email := "pm@cde.example",
    user_role := "Project Manager", resource_type := "document",
    resource_id := some "d7", success := true, status_code := 200 }

/-- Scenario D document: stage Tender, revision P01, authored by u1. -/
def doc10 : Document :=
  { id := "d1", name := "Slab", revision := "P01", status := DocumentStatus.s1,
    discipline := "Structural", description := none, author_id := some "u1",
    versions := [{ revision := "P01", author_id := "u1", comment := "Initial upload",
                   status := DocumentStatus.s1 }] }

/-- Scenario D document table. -/
def store10 : Store := [("d1", doc10)]

/-- Scenario D first request: target Construction. -/
def wA : WorkflowTransition :=
  { state := DocumentStatus.s2, comment := none, increment_revision := false }

/-- Scenario D second request: target Published. -/
def wB : WorkflowTransition :=
  { state := DocumentStatus.s4, comment := none, increment_revision := false }

/-- What the first scenario D request computes from the shared snapshot. -/
def out10A : PromoteOutput :=
  { doc := { id := "d1", name := "Slab", revision := "P01", status := DocumentStatus.s2,
             discipline := "Structural", description := none, author_id := some "u1",
             versions := [{ revision := "P01", author_id := "u1", comment := "Initial upload",
                            status := DocumentStatus.s1 },
                          { revision := "P01", author_id := "u2",
                            comment := "Coordinated - Construction",
                            status := DocumentStatus.s2 }] },
    previous_status := DocumentStatus.s1, new_status := DocumentStatus.s2,
    new_revision := "P01", action := some ActionType.coordinate,
    comment := "Coordinated - Construction" }

/-- What the second scenario D request computes from the shared snapshot. -/
def out10B : PromoteOutput :=
  { doc := { id := "d1", name := "Slab", revision := "C01", status := DocumentStatus.s4,
             discipline := "Structural", description := none, author_id := some "u1",
             versions := [{ revision := "P01", author_id := "u1", comment := "Initial upload",
                            status := DocumentStatus.s1 },
                          { revision := "C01", author_id := "u3",
                            comment := "Published for construction - Published (Rev C01)",
                            status := DocumentStatus.s4 }] },
    previous_status := DocumentStatus.s1, new_status := DocumentStatus.s4,
    new_revision := "C01", action := some ActionType.publish,
    comment := "Published for construction - Published (Rev C01)" }

/-- An archived document, for exercising the terminal stage. -/
def doc3 : Document :=
  { id := "d3", name := "Old", revision := "C02", status := DocumentStatus.s5,
    discipline := "MEP", description := none, author_id := some "u1",
    versions := [{ revision := "C02", author_id := "u1", comment := "Archived",
                   status := DocumentStatus.s5 }] }

/-- Table holding the archived document. -/
def store3 : Store := [("d3", doc3)]

/-- A request to move the archived document back to WIP. -/
def w3 : WorkflowTransition :=
  { state := DocumentStatus.s0, comment := none, increment_revision := false }

/-- A WIP document authored by u1. -/
def docWip : Document :=
  { id := "dw", name := "Draft", revision := "P01", status := DocumentStatus.s0,
    discipline := "Architecture", description := none, author_id := some "u1",
    versions := [{ revision := "P01", author_id := "u1", comment := "Initial upload",
                   status := DocumentStatus.s0 }] }

/-- A metadata update request leaving every field unchanged. -/
def updNone : DocumentUpdate :=
  { name := none, description := none, discipline := none }

/-- The document `upload_document` creates for id "dn" and the Admin principal. -/
def uploaded_doc : Document :=
  { id := "dn", name := "New", revision := "P01", status := DocumentStatus.s0,
    discipline := "Structural", description := none, author_id := some "u0",
    versions := [{ revision := "P01", author_id := "u0", comment := "Initial upload",
                   status := DocumentStatus.s0 }] }

end CDE

namespace CDE

/-- No stage lists itself among its allowed targets. -/
theorem valid_transitions_irrefl : ∀ s : DocumentStatus, s ∉ valid_transitions s := by
  decide

/-- Writing a row back under a key the table already holds makes a lookup of
that key return the written document. -/
theorem store_get_put (store : Store) (document_id : String) (doc d : Document)
    (h : store_get store document_id = some doc) :
    store_get (store_put store document_id d) document_id = some d := by
  induction store with
  | nil => simp [store_get] at h
  | cons p t ih =>
    by_cases hp : p.1 = document_id
    · simp [store_get, store_put, List.find?, hp]
    · have ht : store_get t document_id = some doc := by
        simpa [store_get, List.find?, hp] using h
      have := ih ht
      simpa [store_get, store_put, List.find?, hp] using this

/-- Claim C5: CanView is always true for Admin; for every non-Admin role it is
true off WIP, and on a WIP document it is true iff the acting user id equals
the document's author id (`can_view_document`, rbac.py lines 80-113). -/
theorem claim5_can_view_matches_spec :
    ∀ (uid aid : String) (r : UserRole) (s : DocumentStatus),
      can_view_document uid UserRole.admin s aid = true ∧
      (r ≠ UserRole.admin → s ≠ DocumentStatus.s0 →
        can_view_document uid r s aid = true) ∧
      (r ≠ UserRole.admin →
        (can_view_document uid r DocumentStatus.s0 aid = true ↔ aid = uid)) := by
  intro uid aid r s
  refine ⟨rfl, ?_, ?_⟩
  · intro hr hs
    simp [can_view_document, hr, hs]
  · intro hr
    simp [can_view_document, hr]

/-- Witness for C5 at concrete inputs. -/
theorem claim5_can_view_matches_spec_witness :
    UserRole.viewer ≠ UserRole.admin ∧
      (can_view_document "u1" UserRole.viewer DocumentStatus.s0 "u1" = true ↔
        "u1" = "u1") :=
  ⟨by decide,
    (claim5_can_view_matches_spec "u1" "u1" UserRole.viewer DocumentStatus.s1).2.2
      (by decide)⟩

/-- Claim C2 counterexample: with an empty acting user id, a WIP document whose
author id is empty IS treated as owned by the acting user — `can_view_document`
compares the two strings for plain equality, so the claim's universal
quantification over every acting user id fails at the empty id. -/
theorem claim2_empty_author_counterexample :
    can_view_document "" UserRole.viewer DocumentStatus.s0 "" = true := rfl

/-- Claim C2 amended: for every NON-EMPTY acting user id and every non-Admin
role, CanView on a WIP document whose author id is missing (`None`, normalised
to `""` by the callers' `doc.author_id or ""`) or empty is false. -/
theorem claim2_empty_author_amended :
    ∀ (uid : String) (r : UserRole) (aid : Option String),
      r ≠ UserRole.admin → uid ≠ "" → (aid = none ∨ aid = some "") →
      can_view_document uid r DocumentStatus.s0 (aid.getD "") = false := by
  intro uid r aid hr hu haid
  have h : aid.getD "" = "" := by
    rcases haid with h | h <;> simp [h]
  rw [h]
  simp [can_view_document, hr]
  exact fun hcontra => hu hcontra.symm

/-- Witness for the amended C2 at concrete inputs. -/
theorem claim2_empty_author_amended_witness :
    UserRole.viewer ≠ UserRole.admin ∧ "alice" ≠ "" ∧
      ((none : Option String) = none ∨ (none : Option String) = some "") ∧
      can_view_document "alice" UserRole.viewer DocumentStatus.s0
        ((none : Option String).getD "") = false :=
  ⟨by decide, by decide, Or.inl rfl,
    claim2_empty_author_amended "alice" UserRole.viewer none (by decide) (by decide)
      (Or.inl rfl)⟩

/-- Claim C6: `has_permission` returns exactly the §4.1 table on all 21
role/action combinations, and returns false (rather than erring) on any role
outside the enumerated set. -/
theorem claim6_permission_table :
    (has_permission "Admin" .view = true ∧
     has_permission "Admin" .download = true ∧
     has_permission "Admin" .upload = true ∧
     has_permission "Admin" .update = true ∧
     has_permission "Admin" .delete = true ∧
     has_permission "Admin" .promote = true ∧
     has_permission "Admin" .share = true ∧
     has_permission "Project Manager" .view = true ∧
     has_permission "Project Manager" .download = true ∧
     has_permission "Project Manager" .upload = true ∧
     has_permission "Project Manager" .update = true ∧
     has_permission "Project Manager" .delete = false ∧
     has_permission "Project Manager" .promote = true ∧
     has_permission "Project Manager" .share = true ∧
     has_permission "Viewer" .view = true ∧
     has_permission "Viewer" .download = true ∧
     has_permission "Viewer" .upload = false ∧
     has_permission "Viewer" .update = false ∧
     has_permission "Viewer" .delete = false ∧
     has_permission "Viewer" .promote = false ∧
     has_permission "Viewer" .share = false) ∧
    (∀ (role : String) (p : Permission),
      role ≠ "Admin" → role ≠ "Project Manager" → role ≠ "Viewer" →
      has_permission role p = false) := by
  refine ⟨by decide, ?_⟩
  intro role p h1 h2 h3
  simp [has_permission, UserRole.ofString, h1, h2, h3]

/-- Witness for C6 at a role outside the enumerated set. -/
theorem claim6_permission_table_witness :
    "Superuser" ≠ "Admin" ∧ "Superuser" ≠ "Project Manager" ∧
      "Superuser" ≠ "Viewer" ∧ has_permission "Superuser" Permission.delete = false :=
  ⟨by decide, by decide, by decide,
    claim6_permission_table.2 "Superuser" Permission.delete (by decide) (by decide)
      (by decide)⟩

/-- Claim C3: no stage lists itself as a target and Archived has no targets, so
for any loaded document and any authorized request whose target is not in the
source's allowed-target set, the promotion fails with the invalid-transition
error and the stored table — stage, revision and version sequence included —
is returned unchanged. -/
theorem claim3_invalid_transition_rejected :
    (∀ s : DocumentStatus, s ∉ valid_transitions s) ∧
    valid_transitions DocumentStatus.s5 = [] ∧
    ∀ (document_id : String) (store : Store) (doc : Document) (user : AuthUser)
      (w : WorkflowTransition),
      store_get store document_id = some doc →
      can_promote_document user.id user.role doc.status (doc.author_id.getD "")
        w.state = true →
      w.state ∉ valid_transitions doc.status →
      (promote_document document_id store user w).1 = store ∧
      (promote_document document_id store user w).2.1 =
        Except.error (ApiError.invalidTransition doc.status w.state) := by
  refine ⟨valid_transitions_irrefl, rfl, ?_⟩
  intro document_id store doc user w hget hcan hmem
  have hcompute : promote_compute document_id doc user w =
      (Except.error (ApiError.invalidTransition doc.status w.state), []) := by
    unfold promote_compute
    simp [hcan, hmem]
  simp [promote_document, hget, hcompute]

/-- Witness for C3: an Admin asking to move an Archived document back to WIP. -/
theorem claim3_invalid_transition_rejected_witness :
    store_get store3 "d3" = some doc3 ∧
    can_promote_document userAdmin.id userAdmin.role doc3.status
      (doc3.author_id.getD "") w3.state = true ∧
    w3.state ∉ valid_transitions doc3.status ∧
    ((promote_document "d3" store3 userAdmin w3).1 = store3 ∧
      (promote_document "d3" store3 userAdmin w3).2.1 =
        Except.error (ApiError.invalidTransition doc3.status w3.state)) :=
  ⟨rfl, rfl, by decide,
    claim3_invalid_transition_rejected.2.2 "d3" store3 doc3 userAdmin w3 rfl rfl
      (by decide)⟩

/-- Claim C4 counterexample: on a publish transition the code upper-cases a
kept prefix ("x07" becomes "X08") and identifies the P/A prefixes
case-insensitively ("p02" becomes "C02"), while the §4.3 algorithm read
literally keeps any other prefix unchanged ("x08") and only matches the exact
prefixes "P"/"A" ("p02" would become "p03"). -/
theorem claim4_renumbering_counterexample :
    compute_new_revision (some ActionType.publish) false "x07" = "X08" ∧
    revision_spec_literal (some ActionType.publish) false "x07" = "x08" ∧
    compute_new_revision (some ActionType.publish) false "x07" ≠
      revision_spec_literal (some ActionType.publish) false "x07" ∧
    compute_new_revision (some ActionType.publish) false "p02" = "C02" ∧
    revision_spec_literal (some ActionType.publish) false "p02" = "p03" := by
  refine ⟨by decide, by decide, by decide, by decide, by decide⟩

/-- Claim C4 amended: the renumbering function satisfies the §4.3 algorithm
with the prefix comparisons made case-insensitive (prefix P or A in either
case becomes C with the numeric part kept, any other prefix is kept
upper-cased with the number incremented), together with the spec's enumerated
examples. -/
theorem claim4_renumbering_amended :
    (∀ (a : Option ActionType) (inc : Bool) (rev : String),
      compute_new_revision a inc rev = revision_spec_amended a inc rev) ∧
    compute_new_revision (some ActionType.publish) false "P02" = "C02" ∧
    compute_new_revision (some ActionType.publish) false "A05" = "C05" ∧
    compute_new_revision (some ActionType.publish) false "X07" = "X08" ∧
    compute_new_revision (some ActionType.publish) false "REV-X" = "C01" ∧
    compute_new_revision none true "P02" = "P03" ∧
    compute_new_revision none true "REV-X" = "P01" ∧
    compute_new_revision none false "P02" = "P02" := by
  refine ⟨?_, by decide, by decide, by decide, by decide, by decide, by decide, rfl⟩
  intro a inc rev
  by_cases hpub : a = some ActionType.publish
  · simp only [compute_new_revision, revision_spec_amended, if_pos hpub]
    cases hparse : parse_revision rev with
    | none => simp [hparse]
    | some pr =>
      obtain ⟨pfx, n⟩ := pr
      by_cases hp : strUpper pfx = "P"
      · simp [hparse, hp]
      · by_cases ha : strUpper pfx = "A"
        · simp [hparse, hp, ha]
        · simp [hparse, hp, ha]
  · simp only [compute_new_revision, revision_spec_amended, if_neg hpub]

/-- Claim C7: promoting the InfoApproval/P03 document to Published with no
comment yields stage Published, revision C03, classification publish, and a
synthesized comment containing "Published for construction" and "Rev C03". -/
theorem claim7_publish_scenario :
    promote_compute "d7" doc7 userPM w7 = (Except.ok promoted7_out, [promoted7_event]) ∧
    promoted7_out.new_status = DocumentStatus.s4 ∧
    promoted7_out.new_revision = "C03" ∧
    promoted7_out.action = some ActionType.publish ∧
    (∃ a b, promoted7_out.comment = a ++ "Published for construction" ++ b) ∧
    (∃ a b, promoted7_out.comment = a ++ "Rev C03" ++ b) := by
  refine ⟨rfl, rfl, rfl, rfl,
    ⟨"", " - Published (Rev C03)", by decide⟩,
    ⟨"Published for construction - Published (", ")", by decide⟩⟩

/-- Claim C8: creation establishes the stage/revision-equals-latest-version
invariant with stage WIP and revision P01; a successful transition updates
stage and revision and appends a version record carrying exactly the new stage
and revision, preserving the invariant; a metadata update changes neither
stage, revision nor the version sequence. -/
theorem claim8_invariant_preserved :
    (∀ (doc_id nm disc : String) (descr : Option String) (u : AuthUser) (doc : Document),
      (upload_document doc_id nm disc descr u).1 = Except.ok doc →
      doc.status = DocumentStatus.s0 ∧ doc.revision = "P01" ∧ doc_invariant doc) ∧
    (∀ (document_id : String) (doc : Document) (u : AuthUser) (w : WorkflowTransition)
       (out : PromoteOutput) (evs : List AuditEvent),
      promote_compute document_id doc u w = (Except.ok out, evs) →
      out.doc.status = out.new_status ∧ out.doc.revision = out.new_revision ∧
      (∃ v : VersionRecord, out.doc.versions = doc.versions ++ [v] ∧
        v.status = out.new_status ∧ v.revision = out.new_revision) ∧
      doc_invariant out.doc) ∧
    (∀ (document_id : String) (doc : Document) (u : AuthUser) (data : DocumentUpdate)
       (doc' : Document),
      (update_document document_id (some doc) u data).1 = Except.ok doc' →
      doc'.status = doc.status ∧ doc'.revision = doc.revision ∧
      doc'.versions = doc.versions) := by
  refine ⟨?_, ?_, ?_⟩
  · intro doc_id nm disc descr u doc h
    unfold upload_document at h
    split at h
    · simp at h
    · simp only [Except.ok.injEq] at h
      subst h
      exact ⟨rfl, rfl, by simp [doc_invariant]⟩
  · intro document_id doc u w out evs h
    unfold promote_compute at h
    by_cases hcan : can_promote_document u.id u.role doc.status (doc.author_id.getD "")
        w.state = true
    · by_cases hmem : w.state ∈ valid_transitions doc.status
      · by_cases hsame : doc.status = w.state
        · exact absurd (hsame ▸ hmem) (valid_transitions_irrefl w.state)
        · simp only [hcan, hmem, hsame, if_pos, if_neg, if_true, if_false,
            Bool.true_eq_false, not_false_eq_true, ite_true, ite_false,
            eq_self_iff_true, not_true, decide_True, decide_False] at h
          simp only [Prod.mk.injEq, Except.ok.injEq] at h
          obtain ⟨h1, h2⟩ := h
          subst h1
          refine ⟨rfl, rfl, ⟨_, rfl, rfl, rfl⟩, ?_⟩
          simp [doc_invariant]
      · simp [hcan, hmem] at h
    · rw [Bool.not_eq_true] at hcan
      simp [hcan] at h
  · intro document_id doc u data doc' h
    unfold update_document at h
    split at h
    · simp at h
    · rename_i doc2 heq
      injection heq with hdoc
      subst hdoc
      split at h
      · simp at h
      · simp only [Except.ok.injEq] at h
        subst h
        exact ⟨rfl, rfl, rfl⟩

/-- Witness for C8: the created document, the scenario C transition, and a
no-op metadata update. -/
theorem claim8_invariant_preserved_witness :
    (uploaded_doc.status = DocumentStatus.s0 ∧ uploaded_doc.revision = "P01" ∧
      doc_invariant uploaded_doc) ∧
    (promoted7_out.doc.status = promoted7_out.new_status ∧
      promoted7_out.doc.revision = promoted7_out.new_revision ∧
      (∃ v : VersionRecord, promoted7_out.doc.versions = doc7.versions ++ [v] ∧
        v.status = promoted7_out.new_status ∧ v.revision = promoted7_out.new_revision) ∧
      doc_invariant promoted7_out.doc) ∧
    (docWip.status = docWip.status ∧ docWip.revision = docWip.revision ∧
      docWip.versions = docWip.versions) :=
  ⟨claim8_invariant_preserved.1 "dn" "New" "Structural" none userAdmin uploaded_doc rfl,
   claim8_invariant_preserved.2.1 "d7" doc7 userPM w7 promoted7_out [promoted7_event] rfl,
   claim8_invariant_preserved.2.2 "dw" docWip userAdmin updNone docWip rfl⟩

/-- Claim C9: the promotion predicate returns the same answer for any two
target stages (its output does not depend on the target), and a transition
executes only when both the promotion predicate and the transition-table
check pass. -/
theorem claim9_independent_gates :
    (∀ (uid : String) (r : UserRole) (s : DocumentStatus) (aid : String)
       (t1 t2 : DocumentStatus),
      can_promote_document uid r s aid t1 = can_promote_document uid r s aid t2) ∧
    (∀ (document_id : String) (doc : Document) (u : AuthUser) (w : WorkflowTransition),
      (∃ out, (promote_compute document_id doc u w).1 = Except.ok out) →
      can_promote_document u.id u.role doc.status (doc.author_id.getD "") w.state = true ∧
      w.state ∈ valid_transitions doc.status) := by
  refine ⟨fun _ _ _ _ _ _ => rfl, ?_⟩
  rintro document_id doc u w ⟨out, hout⟩
  by_cases hcan : can_promote_document u.id u.role doc.status (doc.author_id.getD "")
      w.state = true
  · refine ⟨hcan, ?_⟩
    by_cases hmem : w.state ∈ valid_transitions doc.status
    · exact hmem
    · exfalso
      unfold promote_compute at hout
      simp [hcan, hmem] at hout
  · exfalso
    unfold promote_compute at hout
    rw [Bool.not_eq_true] at hcan
    simp [hcan] at hout

/-- Witness for C9: scenario C succeeds, so both gates passed there. -/
theorem claim9_independent_gates_witness :
    can_promote_document userPM.id userPM.role doc7.status (doc7.author_id.getD "")
      w7.state = true ∧ w7.state ∈ valid_transitions doc7.status :=
  claim9_independent_gates.2 "d7" doc7 userPM w7 ⟨promoted7_out, rfl⟩

/-- Claim C10 counterexample: two promotion requests computed from the same
stale Tender snapshot (targets Construction and Published) BOTH succeed under
the interleaved run — the second commit silently overwrites the first, and the
error type has no concurrent-modification outcome at all — contradicting
"exactly one commits; the other receives ConcurrentModification". -/
theorem claim10_concurrency_counterexample :
    (stale_pair_run store10 "d1" userPM wA userPM2 wB).2.1 = Except.ok out10A ∧
    (stale_pair_run store10 "d1" userPM wA userPM2 wB).2.2 = Except.ok out10B ∧
    store_get (stale_pair_run store10 "d1" userPM wA userPM2 wB).1 "d1" =
      some out10B.doc ∧
    out10B.doc ≠ out10A.doc ∧
    out10B.doc.status = DocumentStatus.s4 ∧
    out10B.doc.versions.length = 2 := by
  exact ⟨rfl, rfl, rfl, by decide, rfl, rfl⟩

/-- Claim C10 amended: the code applies each computed transition by an
unconditional load-then-save with no re-check of the stored stage: when two
requests are computed from the same stale snapshot, both report success, the
table receives both blind writes in order, and the surviving row is the second
request's output computed from the stale snapshot — the first write is
silently overwritten. -/
theorem claim10_concurrency_amended :
    ∀ (store : Store) (document_id : String) (doc : Document) (u1 u2 : AuthUser)
      (w1 w2 : WorkflowTransition) (o1 o2 : PromoteOutput),
      store_get store document_id = some doc →
      (promote_compute document_id doc u1 w1).1 = Except.ok o1 →
      (promote_compute document_id doc u2 w2).1 = Except.ok o2 →
      (stale_pair_run store document_id u1 w1 u2 w2).2.1 = Except.ok o1 ∧
      (stale_pair_run store document_id u1 w1 u2 w2).2.2 = Except.ok o2 ∧
      (stale_pair_run store document_id u1 w1 u2 w2).1 =
        store_put (store_put store document_id o1.doc) document_id o2.doc ∧
      store_get (stale_pair_run store document_id u1 w1 u2 w2).1 document_id =
        some o2.doc := by
  intro store document_id doc u1 u2 w1 w2 o1 o2 hget h1 h2
  have hrun : stale_pair_run store document_id u1 w1 u2 w2 =
      (store_put (store_put store document_id o1.doc) document_id o2.doc,
       Except.ok o1, Except.ok o2) := by
    unfold stale_pair_run
    rw [hget]
    simp [h1, h2]
  rw [hrun]
  refine ⟨rfl, rfl, rfl, ?_⟩
  have hmid : store_get (store_put store document_id o1.doc) document_id = some o1.doc :=
    store_get_put store document_id doc o1.doc hget
  exact store_get_put _ document_id o1.doc o2.doc hmid

/-- Witness for the amended C10 at the scenario D inputs. -/
theorem claim10_concurrency_amended_witness :
    (stale_pair_run store10 "d1" userPM wA userPM2 wB).2.1 = Except.ok out10A ∧
    (stale_pair_run store10 "d1" userPM wA userPM2 wB).2.2 = Except.ok out10B ∧
    (stale_pair_run store10 "d1" userPM wA userPM2 wB).1 =
      store_put (store_put store10 "d1" out10A.doc) "d1" out10B.doc ∧
    store_get (stale_pair_run store10 "d1" userPM wA userPM2 wB).1 "d1" =
      some out10B.doc :=
  claim10_concurrency_amended store10 "d1" doc10 userPM userPM2 wA wB out10A out10B
    rfl rfl rfl

/-- Claim C1 counterexample: a denied view call emits no audit event at all,
and the metadata-update endpoint emits none even when permitted — refuting
"exactly one audit event per permitted-or-denied call". -/
theorem claim1_audit_counterexample :
    (get_document "dw" (some docWip) userViewer).1 =
      Except.error ApiError.permissionDenied ∧
    (get_document "dw" (some docWip) userViewer).2.length = 0 ∧
    (update_document "dw" (some docWip) userAdmin updNone).1 = Except.ok docWip ∧
    (update_document "dw" (some docWip) userAdmin updNone).2.length = 0 :=
  ⟨rfl, rfl, rfl, rfl⟩

/-- Claim C1 amended: download, upload, delete and promote emit exactly one
audit event per authorization decision — on denial a single event with success
false, status 403 and the operation-specific `.denied` action; the view
endpoint emits one event when permitted but none when denied; the update
endpoint emits none in either case; a permitted promotion whose target fails
the transition-table check emits none (rejected as a usage error, not a
security event). -/
theorem claim1_audit_amended :
    ∀ (document_id doc_id nm disc : String) (descr : Option String) (doc : Document)
      (u : AuthUser) (data : DocumentUpdate) (w : WorkflowTransition),
      (delete_document document_id (some doc) u).2.length = 1 ∧
      (download_document document_id (some doc) u).2.length = 1 ∧
      (upload_document doc_id nm disc descr u).2.length = 1 ∧
      ((delete_document document_id (some doc) u).1 =
          Except.error ApiError.permissionDenied →
        ∃ e, (delete_document document_id (some doc) u).2 = [e] ∧
          e.action = "document.delete.denied" ∧ e.success = false ∧
          e.status_code = 403) ∧
      (get_document document_id (some doc) u).2.length =
        (if can_view_document u.id u.role doc.status (doc.author_id.getD "") then 1
         else 0) ∧
      (update_document document_id (some doc) u data).2.length = 0 ∧
      (promote_compute document_id doc u w).2.length =
        (if can_promote_document u.id u.role doc.status (doc.author_id.getD "") w.state
         then (if w.state ∈ valid_transitions doc.status then 1 else 0)
         else 1) := by
  intro document_id doc_id nm disc descr doc u data w
  refine ⟨?_, ?_, ?_, ?_, ?_, ?_, ?_⟩
  · by_cases h : can_delete_document u.id u.role doc.status (doc.author_id.getD "") = true <;>
      simp [delete_document, h]
  · by_cases h : can_download_document u.id u.role doc.status (doc.author_id.getD "") = true <;>
      simp [download_document, h]
  · by_cases h : decide (Permission.upload ∈ ROLE_PERMISSIONS u.role) = true <;>
      simp [upload_document, h]
  · by_cases h : can_delete_document u.id u.role doc.status (doc.author_id.getD "") = true
    · intro hcontra
      simp [delete_document, h] at hcontra
    · intro _
      exact ⟨{ action := "document.delete.denied", user_id := u.id, user_email := u.email,
               user_role := u.role.value, resource_type := "document",
               resource_id := some document_id, success := false, status_code := 403 },
             by simp [delete_document, h], rfl, rfl, rfl⟩
  · by_cases h : can_view_document u.id u.role doc.status (doc.author_id.getD "") = true <;>
      simp [get_document, h]
  · by_cases h : can_update_document u.id u.role doc.status (doc.author_id.getD "") = true <;>
      simp [update_document, h]
  · by_cases hcan : can_promote_document u.id u.role doc.status (doc.author_id.getD "")
        w.state = true
    · by_cases hmem : w.state ∈ valid_transitions doc.status
      · have hne : ¬ doc.status = w.state := by
          intro he
          exact valid_transitions_irrefl w.state (he ▸ hmem)
        simp [promote_compute, hcan, hmem, hne]
      · simp [promote_compute, hcan, hmem]
    · simp [promote_compute, hcan]

/-- Witness for the amended C1: the denial-event detail at a concrete denied
delete call. -/
theorem claim1_audit_amended_witness :
    (delete_document "dw" (some docWip) userViewer).1 =
      Except.error ApiError.permissionDenied ∧
    ∃ e, (delete_document "dw" (some docWip) userViewer).2 = [e] ∧
      e.action = "document.delete.denied" ∧ e.success = false ∧ e.status_code = 403 :=
  ⟨rfl,
    (claim1_audit_amended "dw" "dn" "New" "Structural" none docWip userViewer updNone
        w7).2.2.2.1 rfl⟩

end CDE
